import Mathlib

/-!
Shallow embedding of the `cirq-rs` core object model
(`src/cirq_core/src/ops/raw_types.rs`, `src/cirq_core/src/ops/gate_operation.rs`,
`src/cirq_core/src/utils/extra_traits.rs`) and proofs about it.

Modelling conventions:
* Rust `u64` dimensions are modelled as `Nat` (the code only compares them,
  never does wrapping arithmetic).
* `Result<T, anyhow::Error>` is modelled as `Except String T`, the error
  carrying the `format!` message from the source.
* A `Box<dyn QId>` trait object is observable only through its
  `comparison_key()` and `dimension()` methods; where an operation or a gate
  consumes qubits we model such a trait object by the record of those two
  observations (`QIdData`).  The one `QId` implementation of the repository,
  `QubitAsQId`, is modelled separately and generically in the type of the
  wrapped qubit.
* A `Box<dyn Operation>` trait object: the only implementation of the
  `Operation` trait in the repository is `GateOperation`
  (`TaggedOperation` does not implement the trait), so `Box<dyn Operation>`
  values are modelled as `GateOperation` values.
* `clone()` of these immutable values is the identity in the model.
* Rust `String` ordering (`str::cmp`) is lexicographic on UTF-8 bytes, which
  coincides with lexicographic comparison of the code-point sequence; we model
  it by `lexCompare` on `String.data`.
-/

namespace CirqRs

/-- Observable interface of a `Box<dyn QId>` trait object: its
`comparison_key()` string and its `dimension()`. -/
structure QIdData where
  comparison_key : String
  dimension : Nat
deriving DecidableEq

/-- The error message produced by `QubitAsQId::validate_dimension` in
`raw_types.rs`: `format!("Wrong qid dimension. Expected a positive integer but got {}.", dimension)`. -/
def invalidDimensionMsg (d : Nat) : String :=
  "Wrong qid dimension. Expected a positive integer but got " ++ toString d ++ "."

/-- The struct `QubitAsQId` of `raw_types.rs`: a wrapped qubit (the trait
object field `qubit: Box<dyn QId>`, modelled generically by `Q`), an explicit
`comparison_key` and a target `dimension`. -/
structure QubitAsQId (Q : Type) where
  comparison_key : String
  qubit : Q
  dimension : Nat

/-- `QubitAsQId::validate_dimension` from `raw_types.rs`: fails when the
argument dimension is `< 1`, otherwise succeeds; `self` is unused. -/
def QubitAsQId.validate_dimension {Q : Type} (_self : QubitAsQId Q) (dimension : Nat) :
    Except String Unit :=
  if dimension < 1 then
    Except.error (invalidDimensionMsg dimension)
  else
    Except.ok ()

/-- `QubitAsQId::new` from `raw_types.rs`: builds the value with an empty
`comparison_key`, then validates the dimension (the `?` operator propagates
the error), returning the built value on success. -/
def QubitAsQId.new {Q : Type} (qubit : Q) (dimension : Nat) :
    Except String (QubitAsQId Q) :=
  let q : QubitAsQId Q :=
    { comparison_key := "", qubit := qubit, dimension := dimension }
  match q.validate_dimension dimension with
  | Except.error e => Except.error e
  | Except.ok () => Except.ok q

/-- `impl PartialEq for QubitAsQId`: equality compares only the
`comparison_key` fields. -/
def QubitAsQId.eq {Q : Type} (a b : QubitAsQId Q) : Bool :=
  a.comparison_key == b.comparison_key

/-- Lexicographic comparison of code-point sequences, the model of Rust's
`str::cmp` (lexicographic on UTF-8 bytes, which orders identically to code
points). -/
def lexCompare : List Char → List Char → Ordering
  | [], [] => Ordering.eq
  | [], _ :: _ => Ordering.lt
  | _ :: _, [] => Ordering.gt
  | a :: as, b :: bs =>
    if a.toNat < b.toNat then Ordering.lt
    else if b.toNat < a.toNat then Ordering.gt
    else lexCompare as bs

/-- `impl Ord for QubitAsQId`: `self.comparison_key.cmp(&other.comparison_key)`,
i.e. lexicographic comparison of the two key strings. -/
def QubitAsQId.cmp {Q : Type} (a b : QubitAsQId Q) : Ordering :=
  lexCompare a.comparison_key.data b.comparison_key.data

/-- A `Box<dyn Gate>` trait object, observed through `qid_shape()`.  The
default `validate_args` only consults `qid_shape`, and no gate in the
repository overrides it. -/
structure Gate where
  qid_shape : List Nat
deriving DecidableEq

/-- The error message of the default `Gate::validate_args` in `raw_types.rs`. -/
def gateErrMsg : String := "The gate can\x27t be applied to qubits"

/-- The `for i in 0..qubits.len()` loop body of the default
`Gate::validate_args`: compare `qid_shape[i]` with `qubits[i].dimension()`
position by position (the caller has already ensured equal lengths). -/
def checkShapeDims : List Nat → List Nat → Except String Unit
  | s :: srest, d :: drest =>
    if s ≠ d then Except.error gateErrMsg
    else checkShapeDims srest drest
  | _, _ => Except.ok ()

/-- The default `Gate::validate_args` from `raw_types.rs`: error when
`qubits.len() != self.qid_shape().len()`, then error when any
`qid_shape[i] != qubits[i].dimension()`, else `Ok(())`. -/
def Gate.validate_args (self : Gate) (qubits : List QIdData) : Except String Unit :=
  if qubits.length ≠ self.qid_shape.length then
    Except.error gateErrMsg
  else
    checkShapeDims self.qid_shape (qubits.map QIdData.dimension)

/-- The trait `Hashable` of `extra_traits.rs`, observed through `hash()`. -/
structure Hashable where
  hash : Nat

/-- The struct `GateOperation` of `gate_operation.rs`: an owned gate and an
ordered qubit list. -/
structure GateOperation where
  gate : Gate
  qubits : List QIdData

/-- `GateOperation::new` from `gate_operation.rs`: it only stores the two
fields — it does not call `validate_args` and cannot fail. -/
def GateOperation.new (gate : Gate) (qubits : List QIdData) : GateOperation :=
  { gate := gate, qubits := qubits }

/-- `GateOperation::with_gate` from `gate_operation.rs`: replaces the gate and
clones the qubit list; no validation is performed. -/
def GateOperation.with_gate (self : GateOperation) (new_gate : Gate) : GateOperation :=
  { gate := new_gate, qubits := self.qubits }

/-- `impl QIdShape for GateOperation`: `qid_shape` delegates to the gate. -/
def GateOperation.qid_shape (self : GateOperation) : List Nat :=
  self.gate.qid_shape

/-- The default body of the trait method `Operation::gate` in `raw_types.rs`,
which returns `None`.  `impl Operation for GateOperation` does not override
`gate`, so this is what dynamic dispatch runs for a `GateOperation`. -/
def Operation.gate (_self : GateOperation) : Option Gate :=
  none

/-- `Operation::with_qubits` as implemented by `GateOperation`:
`Box::new(Self::new(self.gate.clone(), new_qubits))`. -/
def GateOperation.with_qubits (self : GateOperation) (new_qubits : List QIdData) :
    GateOperation :=
  GateOperation.new self.gate new_qubits

/-- `Operation::tags` as implemented by `GateOperation`: always the empty
vector. -/
def GateOperation.tags (_self : GateOperation) : List Hashable :=
  []

/-- `Operation::untagged` as implemented by `GateOperation`:
`Box::new(self.clone())`, i.e. the value itself. -/
def GateOperation.untagged (self : GateOperation) : GateOperation :=
  self

/-- The struct `TaggedOperation` of `raw_types.rs`: an exclusively owned
sub-operation and an ordered tag list. -/
structure TaggedOperation where
  sub_operation : GateOperation
  tags : List Hashable

/-- `TaggedOperation::new` from `raw_types.rs`: stores the sub-operation and
exactly the given tags. -/
def TaggedOperation.new (sub_operation : GateOperation) (new_tags : List Hashable) :
    TaggedOperation :=
  { sub_operation := sub_operation, tags := new_tags }

/-- `Operation::with_tags` as implemented by `GateOperation`:
`TaggedOperation::new(Box::new(self.clone()), new_tags)`. -/
def GateOperation.with_tags (self : GateOperation) (new_tags : List Hashable) :
    TaggedOperation :=
  TaggedOperation.new self new_tags

/-- `TaggedOperation::qubits` from `raw_types.rs`: delegates to the
sub-operation. -/
def TaggedOperation.qubits (self : TaggedOperation) : List QIdData :=
  self.sub_operation.qubits

/-- `TaggedOperation::gate` from `raw_types.rs`: `self.sub_operation.gate()`,
dispatching the trait method `Operation::gate` on the boxed sub-operation. -/
def TaggedOperation.gate (self : TaggedOperation) : Option Gate :=
  Operation.gate self.sub_operation

/-- `TaggedOperation::with_qubits` from `raw_types.rs`:
`Self::new(self.sub_operation.with_qubits(new_qubits), self.tags.clone())`. -/
def TaggedOperation.with_qubits (self : TaggedOperation) (new_qubits : List QIdData) :
    TaggedOperation :=
  TaggedOperation.new (self.sub_operation.with_qubits new_qubits) self.tags

/-- Modelled from the spec: `TaggedOperation` does not implement the
`Operation` trait in the source, so it has no `untagged()` method; spec §4.4
requires "`untagged()` (inherited contract) must return the original
sub-operation unchanged", which is what this definition does. -/
def TaggedOperation.untagged (self : TaggedOperation) : GateOperation :=
  self.sub_operation

/-- Modelled from the spec: `TaggedOperation` does not implement the
`Operation` trait in the source, so it has no `with_tags()` method; spec §4.3
requires "`with_tags(new_tags)` wraps the operation in a `TaggedOperation`
carrying exactly `new_tags`, discarding any tags the operation itself already
reports (no merge)". -/
def TaggedOperation.with_tags (self : TaggedOperation) (new_tags : List Hashable) :
    TaggedOperation :=
  TaggedOperation.new self.sub_operation new_tags

/-- The struct `InverseCompositeGate` of `raw_types.rs`: owns the original
gate; `qid_shape` delegates to it. -/
structure InverseCompositeGate where
  original : Gate

/-- `impl QIdShape for InverseCompositeGate`. -/
def InverseCompositeGate.qid_shape (self : InverseCompositeGate) : List Nat :=
  self.original.qid_shape

/-! ### Helper lemmas -/

/-- `Char.toNat` is injective. -/
theorem char_toNat_inj {a b : Char} (h : a.toNat = b.toNat) : a = b := by
  have ha := Char.ofNat_toNat a
  have hb := Char.ofNat_toNat b
  rw [← ha, ← hb, h]

/-- On equal-length lists, the per-index dimension check of
`Gate::validate_args` succeeds exactly when the two lists are equal. -/
theorem checkShapeDims_ok_iff (s d : List Nat) (h : s.length = d.length) :
    checkShapeDims s d = Except.ok () ↔ s = d := by
  induction s generalizing d with
  | nil =>
    cases d with
    | nil => simp [checkShapeDims]
    | cons b bs => simp at h
  | cons a as ih =>
    cases d with
    | nil => simp at h
    | cons b bs =>
      have h2 : as.length = bs.length := by simpa using h
      by_cases hab : a = b
      · subst hab
        simp [checkShapeDims, ih bs h2]
      · simp [checkShapeDims, hab]

/-- The per-index dimension check returns either success or the single
application error of the source. -/
theorem checkShapeDims_ok_or_err (s d : List Nat) :
    checkShapeDims s d = Except.ok () ∨ checkShapeDims s d = Except.error gateErrMsg := by
  induction s generalizing d with
  | nil => cases d <;> simp [checkShapeDims]
  | cons a as ih =>
    cases d with
    | nil => simp [checkShapeDims]
    | cons b bs =>
      by_cases hab : a = b
      · subst hab
        simpa [checkShapeDims] using ih bs
      · simp [checkShapeDims, hab]

/-- `lexCompare` answers `eq` exactly on equal lists. -/
theorem lexCompare_eq_iff (x y : List Char) :
    lexCompare x y = Ordering.eq ↔ x = y := by
  induction x generalizing y with
  | nil => cases y <;> simp [lexCompare]
  | cons a as ih =>
    cases y with
    | nil => simp [lexCompare]
    | cons b bs =>
      rcases Nat.lt_trichotomy a.toNat b.toNat with h | h | h
      · rw [lexCompare, if_pos h]
        constructor
        · intro hc
          exact absurd hc (by decide)
        · rintro ⟨rfl, rfl⟩
          exact absurd h (Nat.lt_irrefl _)
      · have hab : a = b := char_toNat_inj h
        subst hab
        rw [lexCompare, if_neg (Nat.lt_irrefl _), if_neg (Nat.lt_irrefl _)]
        simp [ih bs]
      · rw [lexCompare, if_neg (Nat.lt_asymm h), if_pos h]
        constructor
        · intro hc
          exact absurd hc (by decide)
        · rintro ⟨rfl, rfl⟩
          exact absurd h (Nat.lt_irrefl _)

/-! ### Claims -/

/-- C1, counterexample: `GateOperation::new` does not validate.  With the gate
of shape `[2]` and the empty qubit list — a list the default `validate_args`
rejects — construction nevertheless yields a (structurally invalid) value
holding exactly those fields. -/
theorem c1_counterexample :
    (GateOperation.new ⟨[2]⟩ []).gate = ⟨[2]⟩ ∧
    (GateOperation.new ⟨[2]⟩ []).qubits = [] ∧
    Gate.validate_args ⟨[2]⟩ [] = Except.error gateErrMsg :=
  ⟨rfl, rfl, rfl⟩

/-- C1, amended: `GateOperation::new(g, qs)` never calls `validate_args` and
never fails; it always builds the binding with exactly the given gate and
qubit list, so structurally invalid `GateOperation` values can be built (the
gap the spec flags in §9(c)). -/
theorem c1_new_never_validates (g : Gate) (qs : List QIdData) :
    (GateOperation.new g qs).gate = g ∧ (GateOperation.new g qs).qubits = qs :=
  ⟨rfl, rfl⟩

/-- C3, counterexample: `with_gate` neither re-validates nor makes the trait
method `gate()` return the new gate.  Starting from a valid binding of a
shape-`[2]` gate to one dimension-2 qubit and replacing the gate by a
shape-`[3]` gate succeeds, although the new gate rejects the kept qubit list,
and the trait-level `gate()` of the result is `None`, not `Some gate2`. -/
theorem c3_counterexample :
    Operation.gate ((GateOperation.new ⟨[2]⟩ [⟨"a", 2⟩]).with_gate ⟨[3]⟩) = none ∧
    Gate.validate_args ⟨[3]⟩
        ((GateOperation.new ⟨[2]⟩ [⟨"a", 2⟩]).with_gate ⟨[3]⟩).qubits =
      Except.error gateErrMsg :=
  ⟨rfl, rfl⟩

/-- C3, amended: for every `GateOperation` and gate `g2`, `with_gate g2` keeps
the qubit list unchanged and stores `g2` as the internal gate — so `qid_shape`
now delegates to `g2` — but it performs no re-validation (it is total), and
the `Operation` trait method `gate()` of the result is still `None`, since
`GateOperation` never overrides the default. -/
theorem c3_with_gate (op : GateOperation) (g2 : Gate) :
    (op.with_gate g2).qubits = op.qubits ∧
    (op.with_gate g2).gate = g2 ∧
    (op.with_gate g2).qid_shape = g2.qid_shape ∧
    Operation.gate (op.with_gate g2) = none :=
  ⟨rfl, rfl, rfl, rfl⟩

/-- C4: for every operation `op` and tag list `t`,
`op.with_tags(t).untagged()` is `op` itself, hence has the same qubits and the
same (trait-level) gate as `op`. -/
theorem c4_with_tags_untagged (op : GateOperation) (t : List Hashable) :
    (op.with_tags t).untagged = op ∧
    ((op.with_tags t).untagged).qubits = op.qubits ∧
    Operation.gate ((op.with_tags t).untagged) = Operation.gate op :=
  ⟨rfl, rfl, rfl⟩

/-- C5: repeated tagging replaces rather than concatenates —
`op.with_tags(t1).with_tags(t2).tags()` is exactly `t2` — and a
`TaggedOperation`'s `tags()` returns exactly the tag list given at
construction. -/
theorem c5_tags_replacement (op : GateOperation) (t1 t2 : List Hashable)
    (sub : GateOperation) (t : List Hashable) :
    ((op.with_tags t1).with_tags t2).tags = t2 ∧
    (TaggedOperation.new sub t).tags = t :=
  ⟨rfl, rfl⟩

/-- C6: `validate_dimension(d)` is the test `d ≥ 1`, independent of the
receiving instance: any two instances give the same answer, the call succeeds
iff `1 ≤ d`, failure carries the `InvalidDimension` message; and
`QubitAsQId::new(q, 0)` fails with that message while `QubitAsQId::new(q, 2)`
succeeds with a value reporting dimension 2. -/
theorem c6_validate_dimension (Q : Type) (a b : QubitAsQId Q) (d : Nat) (q : Q) :
    (a.validate_dimension d = b.validate_dimension d) ∧
    ((a.validate_dimension d).isOk ↔ 1 ≤ d) ∧
    (d < 1 → a.validate_dimension d = Except.error (invalidDimensionMsg d)) ∧
    (QubitAsQId.new q 0 = Except.error (invalidDimensionMsg 0)) ∧
    (QubitAsQId.new q 2 = Except.ok { comparison_key := "", qubit := q, dimension := 2 }) ∧
    ({ comparison_key := "", qubit := q, dimension := 2 : QubitAsQId Q }).dimension = 2 := by
  refine ⟨rfl, ?_, ?_, rfl, rfl, rfl⟩
  · unfold QubitAsQId.validate_dimension
    by_cases h : d < 1
    · rw [if_pos h]
      constructor
      · intro hk
        simp [Except.isOk, Except.toBool] at hk
      · intro hk
        exact absurd hk (by omega)
    · rw [if_neg h]
      constructor
      · intro _
        omega
      · intro _
        rfl
  · intro h
    unfold QubitAsQId.validate_dimension
    rw [if_pos h]

/-- C6, witness: the theorem applied at `Q := Unit`, instances of dimension 1,
`d := 0`. -/
theorem c6_witness :
    QubitAsQId.new () 0 = Except.error (invalidDimensionMsg 0) ∧
    QubitAsQId.new () 2 =
      Except.ok { comparison_key := "", qubit := (), dimension := 2 } :=
  ⟨(c6_validate_dimension Unit ⟨"", (), 1⟩ ⟨"", (), 1⟩ 0 ()).2.2.2.1,
   (c6_validate_dimension Unit ⟨"", (), 1⟩ ⟨"", (), 1⟩ 0 ()).2.2.2.2.1⟩

/-- C8, counterexample: `QubitAsQId::new` always stores the empty
`comparison_key`.  The same qubit wrapped at the distinct valid dimensions 1
and 2 yields adapters with identical (empty) keys that compare equal, and two
distinct wrapped qubits likewise get identical keys — the gap the spec flags
in §9(a). -/
theorem c8_counterexample :
    QubitAsQId.new () 1 = Except.ok { comparison_key := "", qubit := (), dimension := 1 } ∧
    QubitAsQId.new () 2 = Except.ok { comparison_key := "", qubit := (), dimension := 2 } ∧
    QubitAsQId.eq (Q := Unit) ⟨"", (), 1⟩ ⟨"", (), 2⟩ = true ∧
    QubitAsQId.new (0 : Nat) 2 =
      Except.ok { comparison_key := "", qubit := 0, dimension := 2 } ∧
    QubitAsQId.new (1 : Nat) 2 =
      Except.ok { comparison_key := "", qubit := 1, dimension := 2 } ∧
    QubitAsQId.eq (Q := Nat) ⟨"", 0, 2⟩ ⟨"", 1, 2⟩ = true :=
  ⟨rfl, rfl, rfl, rfl, rfl, rfl⟩

/-- C8, amended: every adapter `QubitAsQId::new` builds carries the empty
comparison key — the key is composed neither from the wrapped qubit's key nor
from the target dimension, so no two adapters ever have distinct keys. -/
theorem c8_key_always_empty (Q : Type) (q : Q) (d : Nat) (r : QubitAsQId Q)
    (h : QubitAsQId.new q d = Except.ok r) : r.comparison_key = "" := by
  unfold QubitAsQId.new QubitAsQId.validate_dimension at h
  by_cases hd : d < 1
  · rw [if_pos hd] at h
    exact absurd h (by simp)
  · rw [if_neg hd] at h
    simp only [Except.ok.injEq] at h
    rw [← h]

/-- C8, witness for the amended theorem at `Q := Unit`, `d := 2`. -/
theorem c8_witness :
    (QubitAsQId.comparison_key (Q := Unit) ⟨"", (), 2⟩) = "" :=
  c8_key_always_empty Unit () 2 ⟨"", (), 2⟩ rfl

/-- C9: `TaggedOperation::with_qubits(qs)` (for `qs` of matching length) is
exactly the rewrapping of `sub_operation.with_qubits(qs)` with the same tag
list, so the tags are preserved. -/
theorem c9_with_qubits_preserves_tags (t : TaggedOperation) (qs : List QIdData)
    (_h : qs.length = t.qubits.length) :
    t.with_qubits qs = TaggedOperation.new (t.sub_operation.with_qubits qs) t.tags ∧
    (t.with_qubits qs).tags = t.tags :=
  ⟨rfl, rfl⟩

/-- C9, witness: the theorem applied to a concrete zero-qubit tagged
operation. -/
theorem c9_witness :
    (TaggedOperation.new (GateOperation.new ⟨[]⟩ []) []).with_qubits [] =
      TaggedOperation.new ((GateOperation.new ⟨[]⟩ []).with_qubits []) [] :=
  (c9_with_qubits_preserves_tags
    (TaggedOperation.new (GateOperation.new ⟨[]⟩ []) []) [] rfl).1

/-- C10: `GateOperation` never overrides the trait default `Operation::gate`,
so through the trait every `GateOperation` reports `gate() = None`, whatever
gate it owns; the owned gate stays reachable through `qid_shape` delegation
and through `with_gate`. -/
theorem c10_trait_gate_is_none (op : GateOperation) (g g2 : Gate) (qs : List QIdData) :
    Operation.gate op = none ∧
    Operation.gate (GateOperation.new g qs) = none ∧
    (GateOperation.new g qs).qid_shape = g.qid_shape ∧
    ((GateOperation.new g qs).with_gate g2).gate = g2 :=
  ⟨rfl, rfl, rfl, rfl⟩

/-- C2: the default `Gate::validate_args(q)` succeeds exactly when `q` has the
same length as the gate's shape and every qubit's dimension equals the shape
entry at its index; in every other case it fails with the application error
message of the source. -/
theorem c2_validate_args_iff (g : Gate) (q : List QIdData) :
    (g.validate_args q = Except.ok () ↔
      (q.length = g.qid_shape.length ∧
        ∀ (i : Nat) (h1 : i < q.length) (h2 : i < g.qid_shape.length),
          (q.get ⟨i, h1⟩).dimension = g.qid_shape.get ⟨i, h2⟩)) ∧
    (g.validate_args q = Except.ok () ∨ g.validate_args q = Except.error gateErrMsg) := by
  constructor
  · by_cases hlen : q.length = g.qid_shape.length
    · have hml : g.qid_shape.length = (q.map QIdData.dimension).length := by
        simp [hlen]
      have hva : g.validate_args q =
          checkShapeDims g.qid_shape (q.map QIdData.dimension) := by
        unfold Gate.validate_args
        rw [if_neg (not_not_intro hlen)]
      rw [hva, checkShapeDims_ok_iff _ _ hml]
      constructor
      · intro hEq
        refine ⟨hlen, ?_⟩
        intro i h1 h2
        have h3 : i < (q.map QIdData.dimension).length := by simpa using h1
        have h5 := (List.ext_get_iff.mp hEq).2 i h2 h3
        rw [h5]
        simp [List.get_eq_getElem, List.getElem_map]
      · rintro ⟨-, hpt⟩
        refine List.ext_get_iff.mpr ⟨hml, ?_⟩
        intro i h1 h2
        have h1q : i < q.length := by omega
        have h6 := hpt i h1q h1
        simp only [List.get_eq_getElem, List.getElem_map] at h6 ⊢
        exact h6.symm
    · have hva : g.validate_args q = Except.error gateErrMsg := by
        unfold Gate.validate_args
        rw [if_pos hlen]
      rw [hva]
      constructor
      · intro hc
        exact Except.noConfusion hc
      · rintro ⟨hl, -⟩
        exact absurd hl hlen
  · by_cases hlen : q.length = g.qid_shape.length
    · have hva : g.validate_args q =
          checkShapeDims g.qid_shape (q.map QIdData.dimension) := by
        unfold Gate.validate_args
        rw [if_neg (not_not_intro hlen)]
      rw [hva]
      exact checkShapeDims_ok_or_err _ _
    · have hva : g.validate_args q = Except.error gateErrMsg := by
        unfold Gate.validate_args
        rw [if_pos hlen]
      rw [hva]
      exact Or.inr rfl

/-- C7: two `QubitAsQId` values compare equal exactly when their
`comparison_key` strings are equal, and their ordering is exactly the
lexicographic ordering of those strings (`cmp` answers `eq` precisely on equal
keys) — the dimension and the wrapped qubit play no role, as both values range
over all fields. -/
theorem c7_order_by_comparison_key (Q : Type) (a b : QubitAsQId Q) :
    (QubitAsQId.eq a b = true ↔ a.comparison_key = b.comparison_key) ∧
    (QubitAsQId.cmp a b = lexCompare a.comparison_key.data b.comparison_key.data) ∧
    (QubitAsQId.cmp a b = Ordering.eq ↔ a.comparison_key = b.comparison_key) := by
  refine ⟨?_, rfl, ?_⟩
  · simp [QubitAsQId.eq]
  · unfold QubitAsQId.cmp
    rw [lexCompare_eq_iff]
    constructor
    · intro h
      exact String.ext h
    · intro h
      rw [h]

end CirqRs
